import Mathlib

/-!
Shallow embedding of the MindBuddy backend chat core (src/server.js):
the response pools, the context builder `buildContextMessages`, the
generic retrying HTTP caller `httpPostWithRetry`, and the POST /api/chat
orchestrator with its catch-block failure classification.

Modelling conventions:
* The network (axios.post) is abstracted as an oracle `Nat → HttpOutcome`
  giving the outcome of the i-th HTTP request issued to that endpoint.
  axios resolves exactly on 2xx statuses; any other failure rejects with
  an error object carrying optional `response.status`, `response.data`,
  `message` and `code` fields.
* `Math.random`-based pool selection is abstracted as an explicit
  selector `pick : List String → String` (the injectable selector of the
  design notes); timestamps are omitted.
* Error response bodies are modelled as the string the catch block sees
  after `String(errMsg)`.
* Backoff waits are recorded in a `sleeps` trace (milliseconds), and the
  outbound HTTP requests performed by the orchestrator are recorded in a
  `calls` trace, so that claims about "no outbound call" and about the
  backoff schedule are statable.
-/

namespace MindBuddy

/-- A chat message: a role string and a content string. -/
structure ChatMessage where
  role : String
  content : String
deriving DecidableEq, Repr

/-- server.js `offlineResponses`. -/
def offlineResponses : List String :=
  [ "Hey! I\u0027m having some connection issues right now, but I\u0027m still here to chat!",
    "Network\u0027s acting up, but don\u0027t worry - I\u0027m listening!",
    "Having trouble connecting to my brain, but your messages are reaching me!",
    "Tech glitch moment! What else is on your mind?",
    "Connection\u0027s a bit wonky, but I\u0027m totally here for you!",
    "My servers are taking a coffee break, but I\u0027m still ready to chat!",
    "Having some internet hiccups, but your thoughts matter to me!",
    "Network\u0027s being moody, but I\u0027m not going anywhere!",
    "Tech troubles, but our conversation continues!",
    "Connection issues, but I\u0027m still your MindBuddy!" ]

/-- server.js `fallbackResponses`. -/
def fallbackResponses : List String :=
  [ "Oops, having trouble! Try messaging again.",
    "Network acting funny. What else is up?",
    "Not able to reply properlyâ€”slow internet?",
    "Let\u0027s chat, don\u0027t mind the tech glitch. Your turn!",
    "Servers are a bit busy. Ask me anything!",
    "Having some technical difficulties, but I\u0027m here!",
    "Connection\u0027s being stubborn, but I\u0027m listening!",
    "Tech hiccup moment! What\u0027s your story?",
    "Network\u0027s having a mood, but our chat continues!",
    "Some server drama, but I\u0027m still your buddy!" ]

/-- The fixed api_key_issue message of the catch block. -/
def apiKeyIssueMessage : String :=
  "My AI brain is taking a break right now, but I\u0027m still here to chat!"

/-- The `choices[i].message.content` level of a provider success body;
`content` may be absent. -/
structure ChoiceMessage where
  content : Option String
deriving DecidableEq, Repr

/-- One element of `choices`; `message` may be absent. -/
structure Choice where
  message : Option ChoiceMessage
deriving DecidableEq, Repr

/-- A provider success body; `choices` itself may be absent. -/
structure ApiData where
  choices : Option (List Choice)
deriving DecidableEq, Repr

/-- A fulfilled axios response (axios only fulfills on 2xx statuses). -/
structure AxiosResponse where
  status : Nat
  data : ApiData
deriving DecidableEq, Repr

/-- A rejected axios call: `status` and `data` model `err.response?.status`
and `String(err.response?.data)` (absent for pure network errors),
`message` models `err.message`, `code` models `err.code`
(`"ECONNABORTED"` on timeout). -/
structure AxiosError where
  status : Option Nat
  data : Option String
  message : String
  code : Option String
deriving DecidableEq, Repr

/-- Outcome of a single HTTP request. -/
inductive HttpOutcome where
  | ok (resp : AxiosResponse)
  | err (e : AxiosError)
deriving DecidableEq, Repr

/-- The retry condition of `httpPostWithRetry`:
`status === 429 || (status >= 500 && status <= 599)`; an error without a
response status is never retried. -/
def retryableStatus : Option Nat → Bool
  | some s => s == 429 || (decide (500 ≤ s) && decide (s ≤ 599))
  | none => false

/-- What `httpPostWithRetry` ends with: a fulfilled response, a thrown
axios error, or (only reachable when `maxAttempts = 0`) `throw lastError`
with `lastError` still undefined. -/
inductive RetryOutcome where
  | success (resp : AxiosResponse)
  | failure (e : AxiosError)
  | threwUndefined
deriving DecidableEq, Repr

/-- Result of a run of `httpPostWithRetry` together with its observable
trace: how many HTTP requests were issued and which backoff waits (in
milliseconds) were performed, in order. -/
structure RetryTrace where
  result : RetryOutcome
  attemptsMade : Nat
  sleeps : List Nat
deriving DecidableEq, Repr

/-- The `throw lastError` site after the while loop: a real error if one was
recorded, otherwise throwing `undefined`. -/
def exhaust : Option AxiosError → RetryOutcome
  | some e => .failure e
  | none => .threwUndefined

/-- The while loop of server.js `httpPostWithRetry`, fuel-indexed: `fuel`
is an upper bound on the remaining loop iterations (`attempt` increments
exactly once per iteration that continues, so `maxAttempts - attempt`
iterations remain; the entry point passes `fuel = maxAttempts`). -/
def httpGoFuel (o : Nat → HttpOutcome) (maxAttempts : Nat) :
    Nat → Nat → Option AxiosError → RetryTrace
  | 0, _, lastError => { result := exhaust lastError, attemptsMade := 0, sleeps := [] }
  | fuel + 1, attempt, lastError =>
    if attempt < maxAttempts then
      match o attempt with
      | .ok resp => { result := .success resp, attemptsMade := 1, sleeps := [] }
      | .err e =>
        if retryableStatus e.status then
          let t := httpGoFuel o maxAttempts fuel (attempt + 1) (some e)
          { result := t.result, attemptsMade := t.attemptsMade + 1,
            sleeps := 500 * 2 ^ attempt :: t.sleeps }
        else { result := .failure e, attemptsMade := 1, sleeps := [] }
    else { result := exhaust lastError, attemptsMade := 0, sleeps := [] }

/-- server.js `httpPostWithRetry` (the url/data/headers/timeout arguments
are abstracted into the outcome oracle `o`; `maxAttempts` defaults to 2 at
the call sites). -/
def httpPostWithRetry (o : Nat → HttpOutcome) (maxAttempts : Nat) : RetryTrace :=
  httpGoFuel o maxAttempts maxAttempts 0 none

/-- The fixed system prompt of `buildContextMessages` (content copied from
server.js, including its mojibake punctuation; one JS template literal). -/
def systemPromptText : String :=
  "You are MindBuddy. You are a real friend, texting the user directly.\n" ++
  "â€” Speak naturally, like a smart, emotionally aware person (not an AI, not a therapist).\n" ++
  "â€” Use contractions (\"donâ€™t\", \"canâ€™t\", etc.).\n" ++
  "â€” Avoid all formal/counselor templates. Never say â€œI understand how you feel,â€ â€œIâ€™m here for you,â€ or similar phrases.\n" ++
  "â€” If the user is being unrealistic or overthinking, use gentle logic or subtle humor to ground themâ€”donâ€™t sugarcoat, but donâ€™t be mean.\n" ++
  "â€” Make every reply context-aware and non-repetitive.\n" ++
  "â€” Avoid formal language and words like â€œtherapy,â€ â€œdiagnosis,â€ or â€œtreatment.â€\n" ++
  "â€” If you comfort someone, keep it casual, not clinical.\n" ++
  "â€” If you notice illogical or self-critical spirals, call them out kindly.\n" ++
  "â€” If the user makes progress, acknowledge it briefly without fake praise.\n" ++
  "â€” Never repeat templates. Each reply should be unique and adapt to the user\u0027s real energy.\n" ++
  "â€” Prioritize reasoning, insight, and real conversation, not empty motivation.\n" ++
  "â€” Responses should be concise, text-message length, but never rushed or dismissive."

/-- The system-prompt message pushed first by `buildContextMessages`. -/
def systemMessage : ChatMessage :=
  { role := "system", content := systemPromptText }

/-- server.js `buildContextMessages`: system prompt, then
`chatHistory.slice(-10)` copied entry by entry, then the new user message.
`slice(-10)` keeps the last `min 10 length` entries in order, which is
`drop (length - 10)` (truncated subtraction). The function is pure: the
input history is read, never mutated. -/
def buildContextMessages (chatHistory : List ChatMessage) (userMessage : String) :
    List ChatMessage :=
  (systemMessage ::
    (chatHistory.drop (chatHistory.length - 10)).map
      (fun m => { role := m.role, content := m.content })) ++
  [{ role := "user", content := userMessage }]

/-- The JS whitespace class used by `String.prototype.trim` (the common
members; the exotic unicode spaces do not occur in this code base). -/
def jsWhitespace (c : Char) : Bool :=
  c == ' ' || c == '\t' || c == '\n' || c == '\r' || c == '\x0b' || c == '\x0c'

/-- JS `String.prototype.trim`: strip leading and trailing whitespace. -/
def jsTrim (s : String) : String :=
  String.mk (((s.toList.dropWhile jsWhitespace).reverse.dropWhile jsWhitespace).reverse)

/-- JS `String.prototype.includes` on lists of characters: `pat` occurs
contiguously inside `s` (the empty pattern always occurs). -/
def listContainsSub : List Char → List Char → Bool
  | _, [] => true
  | [], _ :: _ => false
  | c :: rest, p :: ps => (p :: ps).isPrefixOf (c :: rest) || listContainsSub rest (p :: ps)

/-- JS `String(s).includes(pat)`. -/
def strIncludes (s pat : String) : Bool :=
  listContainsSub s.toList pat.toList

/-- A value thrown inside the /api/chat try block: an axios rejection, an
ordinary JS Error (the explicit `throw new Error(...)` or a TypeError from
an unguarded property access), or `undefined` (only from
`httpPostWithRetry` with `maxAttempts = 0`). -/
inductive Thrown where
  | axiosErr (e : AxiosError)
  | jsError (message : String)
  | undef
deriving DecidableEq, Repr

/-- Evaluation of `choices?.[0]?.message?.content?.trim() || ''` on the OpenRouter 200
body: optional chaining never throws; any missing level, or content that
trims to empty, yields the empty string. -/
def extractOpenrouterText (d : ApiData) : String :=
  match d.choices with
  | none => ""
  | some cs =>
    match cs.head? with
    | none => ""
    | some c =>
      match c.message with
      | none => ""
      | some m =>
        match m.content with
        | none => ""
        | some s => jsTrim s

/-- Evaluation of `openaiResponse.data.choices[0].message.content.trim()` on the OpenAI
200 body: no optional chaining, so a missing level throws a TypeError
(which the catch block then classifies). -/
def extractOpenaiText (d : ApiData) : Except Thrown String :=
  match d.choices with
  | none => .error (.jsError "Cannot read properties of undefined (reading \u00270\u0027)")
  | some cs =>
    match cs.head? with
    | none => .error (.jsError "Cannot read properties of undefined (reading \u0027message\u0027)")
    | some c =>
      match c.message with
      | none => .error (.jsError "Cannot read properties of undefined (reading \u0027content\u0027)")
      | some m =>
        match m.content with
        | none => .error (.jsError "Cannot read properties of undefined (reading \u0027trim\u0027)")
        | some s => .ok (jsTrim s)

/-- The final JSON sent for one chat request: the 400 validation reply, a
generic 500 from the error middleware (not reachable from the modelled
paths), or a normal reply `{response, source, error?, status?}`
(timestamp omitted). -/
inductive ChatResult where
  | badRequest (error : String)
  | serverError
  | ok (response : String) (source : String) (error : Option String) (status : Option Nat)
deriving DecidableEq, Repr

/-- Evaluation of `error?.response?.data || error.message` for an axios error, as the
string the catch block sees. -/
def errMsgOfAxios (e : AxiosError) : String :=
  match e.data with
  | some d => if d = "" then e.message else d
  | none => e.message

/-- The classification chain of the /api/chat catch block, in source
order: quota/429 first, then the key-issue message test, then timeout,
else fallback. -/
def classifyCatch (pick : List String → String) (status : Option Nat)
    (errMsg : String) (code : Option String) : ChatResult :=
  if strIncludes errMsg "insufficient_quota" || status == some 429 then
    .ok (pick offlineResponses) "rate_limited" (some errMsg) status
  else if strIncludes errMsg "account_deactivated" || strIncludes errMsg "invalid_api_key" ||
      strIncludes errMsg "401" then
    .ok apiKeyIssueMessage "api_key_issue" (some errMsg) status
  else if code == some "ECONNABORTED" || strIncludes errMsg "timeout" then
    .ok (pick offlineResponses) "timeout" (some errMsg) status
  else
    .ok (pick fallbackResponses) "fallback" (some errMsg) status

/-- The /api/chat catch block applied to a thrown value. A thrown
`undefined` would itself crash the catch block (reading `.response` of
undefined), reaching the generic 500 middleware. -/
def catchBlock (pick : List String → String) : Thrown → ChatResult
  | .undef => .serverError
  | .axiosErr e => classifyCatch pick e.status (errMsgOfAxios e) e.code
  | .jsError m => classifyCatch pick none m none

/-- The inbound `message` field of the request body: absent, a string, or
some non-string JSON value. -/
inductive ReqMessage where
  | absent
  | str (s : String)
  | nonString
deriving DecidableEq, Repr

/-- An inbound /api/chat request body (`userId` is destructured but
unused). -/
structure ChatRequest where
  message : ReqMessage
  chatHistory : List ChatMessage
  userId : Option String
deriving DecidableEq, Repr

/-- The validation `if (!message || typeof message !== 'string')`: the
message passes exactly when it is a non-empty string (an empty string is
falsy). -/
def validMessage : ReqMessage → Option String
  | .str s => if s == "" then none else some s
  | _ => none

/-- JS truthiness of an environment variable: set and non-empty. -/
def keyTruthy : Option String → Bool
  | some s => !(s == "")
  | none => false

/-- The provider endpoints of server.js. -/
def openrouterUrl : String := "https://openrouter.ai/api/v1/chat/completions"

/-- The OpenAI endpoint of server.js. -/
def openaiUrl : String := "https://api.openai.com/v1/chat/completions"

/-- One outbound provider HTTP request, identified by endpoint and the
message list sent. -/
structure OutboundCall where
  url : String
  payload : List ChatMessage
deriving DecidableEq, Repr

/-- The configuration and network environment of one /api/chat
invocation: the two environment keys and the outcome oracle of each
provider endpoint (indexed by request number). -/
structure Env where
  openrouterKey : Option String
  openaiKey : Option String
  orOutcomes : Nat → HttpOutcome
  oaOutcomes : Nat → HttpOutcome

/-- The result of one /api/chat invocation plus the outbound provider
requests it issued, in order. -/
structure HandleOutput where
  result : ChatResult
  calls : List OutboundCall

/-- The `if (openaiApiKey) ... else offline` tail of the /api/chat try
block: call OpenAI with `httpPostWithRetry` (maxAttempts 2), return its
trimmed `choices[0].message.content` on status 200, `throw new Error` on
any other fulfilled status; with no key, return an offline-pool pick with
source `offline`. -/
def openaiStep (env : Env) (pick : List String → String) (ctx : List ChatMessage) :
    Except Thrown (String × String) × List OutboundCall :=
  if keyTruthy env.openaiKey then
    let t := httpPostWithRetry env.oaOutcomes 2
    let calls := List.replicate t.attemptsMade { url := openaiUrl, payload := ctx }
    match t.result with
    | .threwUndefined => (.error .undef, calls)
    | .failure e => (.error (.axiosErr e), calls)
    | .success resp =>
      if resp.status == 200 then
        match extractOpenaiText resp.data with
        | .error th => (.error th, calls)
        | .ok s => (.ok (s, "openai"), calls)
      else (.error (.jsError ("OpenAI API error: " ++ toString resp.status)), calls)
  else (.ok (pick offlineResponses, "offline"), [])

/-- The `if (openrouterKey) ...` head of the /api/chat try block: call
OpenRouter with `httpPostWithRetry` (maxAttempts 2); return its extracted
text with source `openrouter` when the status is 200 and the text is
non-empty; otherwise fall through to `openaiStep`. A rejection of the
OpenRouter call propagates (to the catch block) without reaching
`openaiStep`. -/
def openrouterStep (env : Env) (pick : List String → String) (ctx : List ChatMessage) :
    Except Thrown (String × String) × List OutboundCall :=
  if keyTruthy env.openrouterKey then
    let t := httpPostWithRetry env.orOutcomes 2
    let calls := List.replicate t.attemptsMade { url := openrouterUrl, payload := ctx }
    match t.result with
    | .threwUndefined => (.error .undef, calls)
    | .failure e => (.error (.axiosErr e), calls)
    | .success resp =>
      if resp.status == 200 && !(extractOpenrouterText resp.data == "") then
        (.ok (extractOpenrouterText resp.data, "openrouter"), calls)
      else
        let rest := openaiStep env pick ctx
        (rest.1, calls ++ rest.2)
  else openaiStep env pick ctx

/-- The POST /api/chat handler: validate the message (400 on failure,
before any provider access), build the context, run the provider chain,
and send either the success JSON or the catch-block classification. -/
def handle (env : Env) (pick : List String → String) (req : ChatRequest) : HandleOutput :=
  match validMessage req.message with
  | none => { result := .badRequest "Message is required and must be a string", calls := [] }
  | some msg =>
    let ctx := buildContextMessages req.chatHistory msg
    let run := openrouterStep env pick ctx
    match run.1 with
    | .ok ts => { result := .ok ts.1 ts.2 none none, calls := run.2 }
    | .error t => { result := catchBlock pick t, calls := run.2 }

/-- The `source` field of a sent reply, when one was sent. -/
def sourceOf : ChatResult → Option String
  | .ok _ src _ _ => some src
  | _ => none

/-- The reply text when it was produced by a live provider (source
`openrouter` or `openai`), and `none` otherwise. -/
def providerTextOf : ChatResult → Option String
  | .ok resp src _ _ =>
    if src == "openrouter" || src == "openai" then some resp else none
  | _ => none

/-- The source tags a sent reply can carry. -/
def allowedSources : List String :=
  ["openrouter", "openai", "offline", "rate_limited", "api_key_issue", "timeout", "fallback"]


theorem httpGoFuel_attempts_le_fuel (o : Nat → HttpOutcome) (m : Nat) :
    ∀ (fuel a : Nat) (le : Option AxiosError),
      (httpGoFuel o m fuel a le).attemptsMade ≤ fuel := by
  intro fuel
  induction fuel with
  | zero => intro a le; simp [httpGoFuel]
  | succ n ih =>
    intro a le
    by_cases ha : a < m
    · cases h0 : o a with
      | ok resp => simp [httpGoFuel, ha, h0]
      | err e =>
        by_cases hretry : retryableStatus e.status = true
        · have h := ih (a + 1) (some e)
          simp only [httpGoFuel, ha, h0, hretry, if_true, if_pos]
          omega
        · simp only [Bool.not_eq_true] at hretry
          simp [httpGoFuel, ha, h0, hretry]
    · simp [httpGoFuel, ha]

theorem httpGoFuel_done (o : Nat → HttpOutcome) (m : Nat) (fuel a : Nat)
    (le : Option AxiosError) (h : ¬ a < m) :
    httpGoFuel o m fuel a le = { result := exhaust le, attemptsMade := 0, sleeps := [] } := by
  cases fuel with
  | zero => simp [httpGoFuel]
  | succ n => simp [httpGoFuel, h]

theorem httpGoFuel_attempts_pos (o : Nat → HttpOutcome) (m : Nat) :
    ∀ (fuel a : Nat) (le : Option AxiosError), a < m → m ≤ fuel + a →
      1 ≤ (httpGoFuel o m fuel a le).attemptsMade := by
  intro fuel
  induction fuel with
  | zero => intro a le ha hm; omega
  | succ n ih =>
    intro a le ha hm
    cases h0 : o a with
    | ok resp => simp [httpGoFuel, ha, h0]
    | err e =>
      by_cases hretry : retryableStatus e.status = true
      · simp only [httpGoFuel, ha, h0, hretry, if_true, if_pos]
        omega
      · simp only [Bool.not_eq_true] at hretry
        simp [httpGoFuel, ha, h0, hretry]

theorem httpGoFuel_retry_retryable (o : Nat → HttpOutcome) (m : Nat) :
    ∀ (fuel a : Nat) (le : Option AxiosError) (i : Nat),
      i + 1 < (httpGoFuel o m fuel a le).attemptsMade →
      ∃ e, o (a + i) = .err e ∧ retryableStatus e.status = true := by
  intro fuel
  induction fuel with
  | zero => intro a le i hi; simp [httpGoFuel] at hi
  | succ n ih =>
    intro a le i hi
    by_cases ha : a < m
    · cases h0 : o a with
      | ok resp => simp [httpGoFuel, ha, h0] at hi
      | err e =>
        by_cases hretry : retryableStatus e.status = true
        · simp only [httpGoFuel, ha, h0, hretry, if_true, if_pos] at hi
          cases i with
          | zero => exact ⟨e, by simpa using h0, hretry⟩
          | succ j =>
            have h := ih (a + 1) (some e) j (by omega)
            obtain ⟨e', he', hre'⟩ := h
            exact ⟨e', by rw [← he']; congr 1; omega, hre'⟩
        · simp only [Bool.not_eq_true] at hretry
          simp [httpGoFuel, ha, h0, hretry] at hi
    · simp [httpGoFuel_done o m _ a le ha] at hi

theorem httpGoFuel_retry_occurs (o : Nat → HttpOutcome) (m : Nat) :
    ∀ (fuel a : Nat) (le : Option AxiosError) (i : Nat), m ≤ fuel + a →
      i < (httpGoFuel o m fuel a le).attemptsMade →
      (∃ e, o (a + i) = .err e ∧ retryableStatus e.status = true) →
      a + i + 1 < m →
      i + 1 < (httpGoFuel o m fuel a le).attemptsMade := by
  intro fuel
  induction fuel with
  | zero => intro a le i hm hi; simp [httpGoFuel] at hi
  | succ n ih =>
    intro a le i hm hi hr hb
    have ha : a < m := by omega
    cases h0 : o a with
    | ok resp =>
      simp [httpGoFuel, ha, h0] at hi
      obtain ⟨e, he, _⟩ := hr
      have hz : i = 0 := by omega
      subst hz
      simp [h0] at he
    | err e =>
      by_cases hretry : retryableStatus e.status = true
      · simp only [httpGoFuel, ha, h0, hretry, if_true, if_pos] at hi ⊢
        cases i with
        | zero =>
          have hpos := httpGoFuel_attempts_pos o m n (a + 1) (some e) (by omega) (by omega)
          omega
        | succ j =>
          have h := ih (a + 1) (some e) j (by omega)
            (by omega)
            (by obtain ⟨e', he', hre'⟩ := hr
                exact ⟨e', by rw [← he']; congr 1; omega, hre'⟩)
            (by omega)
          omega
      · simp only [Bool.not_eq_true] at hretry
        simp [httpGoFuel, ha, h0, hretry] at hi
        obtain ⟨e', he', hre'⟩ := hr
        have hz : i = 0 := by omega
        subst hz
        simp only [Nat.add_zero] at he'
        rw [h0] at he'
        cases he'
        rw [hretry] at hre'
        exact absurd hre' (by simp)
theorem httpGoFuel_nonretryable_stops (o : Nat → HttpOutcome) (m : Nat) :
    ∀ (fuel a : Nat) (le : Option AxiosError) (i : Nat) (e : AxiosError),
      i < (httpGoFuel o m fuel a le).attemptsMade →
      o (a + i) = .err e → retryableStatus e.status = false →
      (httpGoFuel o m fuel a le).result = .failure e ∧
      (httpGoFuel o m fuel a le).attemptsMade = i + 1 := by
  intro fuel
  induction fuel with
  | zero => intro a le i e hi; simp [httpGoFuel] at hi
  | succ n ih =>
    intro a le i e hi he hre
    by_cases ha : a < m
    · cases h0 : o a with
      | ok resp =>
        simp [httpGoFuel, ha, h0] at hi ⊢
        have hz : i = 0 := by omega
        subst hz
        simp [h0] at he
      | err e0 =>
        by_cases hretry : retryableStatus e0.status = true
        · simp only [httpGoFuel, ha, h0, hretry, if_true, if_pos] at hi ⊢
          cases i with
          | zero =>
            simp only [Nat.add_zero] at he
            rw [h0] at he
            cases he
            rw [hretry] at hre
            exact absurd hre (by simp)
          | succ j =>
            have h := ih (a + 1) (some e0) j e (by omega)
              (by rw [← he]; congr 1; omega) hre
            refine ⟨h.1, by omega⟩
        · simp only [Bool.not_eq_true] at hretry
          simp [httpGoFuel, ha, h0, hretry] at hi ⊢
          have hz : i = 0 := by omega
          subst hz
          simp only [Nat.add_zero] at he
          rw [h0] at he
          cases he
          exact ⟨rfl, rfl⟩
    · simp [httpGoFuel_done o m _ a le ha] at hi

theorem httpGoFuel_exhausts (o : Nat → HttpOutcome) (m : Nat) :
    ∀ (fuel a : Nat) (le : Option AxiosError),
      (∀ i, a ≤ i → i < m → ∃ e, o i = .err e ∧ retryableStatus e.status = true) →
      a < m → m ≤ fuel + a →
      ∃ e, o (m - 1) = .err e ∧
        (httpGoFuel o m fuel a le).result = .failure e ∧
        (httpGoFuel o m fuel a le).attemptsMade = m - a := by
  intro fuel
  induction fuel with
  | zero => intro a le hall ha hm; omega
  | succ n ih =>
    intro a le hall ha hm
    obtain ⟨e, he, hre⟩ := hall a (Nat.le_refl a) ha
    by_cases hb : a + 1 < m
    · obtain ⟨e', hlast, hr', hatt⟩ := ih (a + 1) (some e)
        (fun i hi₁ hi₂ => hall i (by omega) hi₂) hb (by omega)
      refine ⟨e', hlast, ?_, ?_⟩
      · simp only [httpGoFuel, ha, he, hre, if_true, if_pos]
        exact hr'
      · simp only [httpGoFuel, ha, he, hre, if_true, if_pos]
        omega
    · have hm1 : m = a + 1 := by omega
      refine ⟨e, by rw [hm1]; simpa using he, ?_, ?_⟩
      · simp only [httpGoFuel, ha, he, hre, if_true, if_pos]
        rw [httpGoFuel_done o m n (a + 1) (some e) (by omega)]
        rfl
      · simp only [httpGoFuel, ha, he, hre, if_true, if_pos]
        rw [httpGoFuel_done o m n (a + 1) (some e) (by omega)]
        simp
        omega

theorem httpGoFuel_sleeps_schedule (o : Nat → HttpOutcome) (m : Nat) :
    ∀ (fuel a : Nat) (le : Option AxiosError),
      (httpGoFuel o m fuel a le).sleeps =
        (List.range (httpGoFuel o m fuel a le).sleeps.length).map
          (fun i => 500 * 2 ^ (a + i)) := by
  intro fuel
  induction fuel with
  | zero => intro a le; simp [httpGoFuel]
  | succ n ih =>
    intro a le
    by_cases ha : a < m
    · cases h0 : o a with
      | ok resp => simp [httpGoFuel, ha, h0]
      | err e =>
        by_cases hretry : retryableStatus e.status = true
        · simp only [httpGoFuel, ha, h0, hretry, if_true, if_pos, List.length_cons]
          have h := ih (a + 1) (some e)
          rw [h, List.length_map, List.length_range, List.range_succ_eq_map,
            List.map_cons, List.map_map]
          congr 1
          apply List.map_congr_left
          intro i _
          simp only [Function.comp_apply]
          have heq : a + 1 + i = a + (i + 1) := by omega
          rw [heq]
        · simp only [Bool.not_eq_true] at hretry
          simp [httpGoFuel, ha, h0, hretry]
    · simp [httpGoFuel_done o m _ a le ha]

theorem httpGoFuel_attempts_le_sleeps (o : Nat → HttpOutcome) (m : Nat) :
    ∀ (fuel a : Nat) (le : Option AxiosError),
      (httpGoFuel o m fuel a le).attemptsMade ≤
        (httpGoFuel o m fuel a le).sleeps.length + 1 := by
  intro fuel
  induction fuel with
  | zero => intro a le; simp [httpGoFuel]
  | succ n ih =>
    intro a le
    by_cases ha : a < m
    · cases h0 : o a with
      | ok resp => simp [httpGoFuel, ha, h0]
      | err e =>
        by_cases hretry : retryableStatus e.status = true
        · have h := ih (a + 1) (some e)
          simp only [httpGoFuel, ha, h0, hretry, if_true, if_pos, List.length_cons]
          omega
        · simp only [Bool.not_eq_true] at hretry
          simp [httpGoFuel, ha, h0, hretry]
    · simp [httpGoFuel_done o m _ a le ha]

/-- C5: for every call to the retrying caller, at most `maxAttempts` HTTP
attempts are made; every attempt after the first follows a failure whose
status was 429 or in 500..599; whenever an attempt fails with such a
status and the attempt budget allows, a further attempt is made; a
non-retryable failure is raised at once with no further attempt; when all
`maxAttempts` attempts fail retryably, the last observed failure is
raised; and the waits follow the 500ms * 2^attempt schedule (500ms, then
1000ms, ...). -/
theorem retrying_caller_spec (o : Nat → HttpOutcome) (m : Nat) :
    (httpPostWithRetry o m).attemptsMade ≤ m ∧
    (∀ i, i + 1 < (httpPostWithRetry o m).attemptsMade →
      ∃ e, o i = .err e ∧ retryableStatus e.status = true) ∧
    (∀ i, i < (httpPostWithRetry o m).attemptsMade →
      (∃ e, o i = .err e ∧ retryableStatus e.status = true) →
      i + 1 < m → i + 1 < (httpPostWithRetry o m).attemptsMade) ∧
    (∀ i e, i < (httpPostWithRetry o m).attemptsMade → o i = .err e →
      retryableStatus e.status = false →
      (httpPostWithRetry o m).result = .failure e ∧
      (httpPostWithRetry o m).attemptsMade = i + 1) ∧
    ((∀ i, i < m → ∃ e, o i = .err e ∧ retryableStatus e.status = true) → 1 ≤ m →
      ∃ e, o (m - 1) = .err e ∧ (httpPostWithRetry o m).result = .failure e ∧
        (httpPostWithRetry o m).attemptsMade = m) ∧
    (httpPostWithRetry o m).sleeps =
      (List.range (httpPostWithRetry o m).sleeps.length).map (fun i => 500 * 2 ^ i) ∧
    (httpPostWithRetry o m).attemptsMade ≤ (httpPostWithRetry o m).sleeps.length + 1 := by
  refine ⟨httpGoFuel_attempts_le_fuel o m m 0 none, ?_, ?_, ?_, ?_, ?_,
    httpGoFuel_attempts_le_sleeps o m m 0 none⟩
  · intro i hi
    have h := httpGoFuel_retry_retryable o m m 0 none i hi
    simpa using h
  · intro i hi hr hb
    exact httpGoFuel_retry_occurs o m m 0 none i (by omega) hi (by simpa using hr) (by omega)
  · intro i e hi he hre
    exact httpGoFuel_nonretryable_stops o m m 0 none i e hi (by simpa using he) hre
  · intro hall hm
    have h := httpGoFuel_exhausts o m m 0 none
      (fun i _ hi => hall i hi) (by omega) (by omega)
    simpa using h
  · have h := httpGoFuel_sleeps_schedule o m m 0 none
    simpa using h

/-- A stub whose every attempt fails with HTTP 500. -/
def fiveHundredStub : Nat → HttpOutcome :=
  fun _ => .err { status := some 500, data := none,
                  message := "Request failed with status code 500", code := none }

/-- Witness for C5 at the two-consecutive-500s, maxAttempts = 2 scenario:
the caller surfaces the failure after exactly 2 attempts. -/
theorem retrying_caller_spec_witness :
    ∃ e, fiveHundredStub (2 - 1) = .err e ∧
      (httpPostWithRetry fiveHundredStub 2).result = .failure e ∧
      (httpPostWithRetry fiveHundredStub 2).attemptsMade = 2 :=
  (retrying_caller_spec fiveHundredStub 2).2.2.2.2.1
    (fun _ _ => ⟨{ status := some 500, data := none,
                   message := "Request failed with status code 500", code := none },
                 rfl, rfl⟩)
    (by decide)

theorem httpPostWithRetry_two_not_undef (o : Nat → HttpOutcome) :
    (httpPostWithRetry o 2).result ≠ .threwUndefined := by
  unfold httpPostWithRetry
  simp only [httpGoFuel]
  cases h0 : o 0 <;> simp [h0]
  next e =>
    split
    · cases h1 : o 1 <;> simp [h1]
      next e2 => split <;> simp [exhaust]
    · simp

theorem extractOpenaiText_thrown (d : ApiData) (th : Thrown)
    (h : extractOpenaiText d = .error th) : th ≠ Thrown.undef := by
  unfold extractOpenaiText at h
  repeat' split at h
  all_goals first
    | (cases h; simp)
    | (exact absurd h (by simp))

theorem handle_valid (env : Env) (pick : List String → String) (req : ChatRequest)
    (s : String) (hm : req.message = .str s) (hs : s ≠ "") :
    handle env pick req =
      { result :=
          match (openrouterStep env pick (buildContextMessages req.chatHistory s)).1 with
          | .ok ts => .ok ts.1 ts.2 none none
          | .error t => catchBlock pick t,
        calls := (openrouterStep env pick (buildContextMessages req.chatHistory s)).2 } := by
  have hv : validMessage req.message = some s := by simp [validMessage, hm, hs]
  simp only [handle, hv]
  cases hrun : (openrouterStep env pick (buildContextMessages req.chatHistory s)).1 <;>
    simp [hrun]

theorem openaiStep_offline (env : Env) (pick : List String → String)
    (ctx : List ChatMessage) (hk : keyTruthy env.openaiKey = false) :
    openaiStep env pick ctx = (.ok (pick offlineResponses, "offline"), []) := by
  simp [openaiStep, hk]

theorem openaiStep_success (env : Env) (pick : List String → String)
    (ctx : List ChatMessage) (resp : AxiosResponse) (t : String)
    (hk : keyTruthy env.openaiKey = true)
    (hr : (httpPostWithRetry env.oaOutcomes 2).result = .success resp)
    (hs : resp.status = 200)
    (he : extractOpenaiText resp.data = .ok t) :
    openaiStep env pick ctx =
      (.ok (t, "openai"),
        List.replicate (httpPostWithRetry env.oaOutcomes 2).attemptsMade
          { url := openaiUrl, payload := ctx }) := by
  simp [openaiStep, hk, hr, hs, he]

theorem openrouterStep_fail (env : Env) (pick : List String → String)
    (ctx : List ChatMessage) (e : AxiosError)
    (hk : keyTruthy env.openrouterKey = true)
    (hr : (httpPostWithRetry env.orOutcomes 2).result = .failure e) :
    openrouterStep env pick ctx =
      (.error (.axiosErr e),
        List.replicate (httpPostWithRetry env.orOutcomes 2).attemptsMade
          { url := openrouterUrl, payload := ctx }) := by
  simp [openrouterStep, hk, hr]

theorem openrouterStep_fallthrough (env : Env) (pick : List String → String)
    (ctx : List ChatMessage) (resp : AxiosResponse)
    (hk : keyTruthy env.openrouterKey = true)
    (hr : (httpPostWithRetry env.orOutcomes 2).result = .success resp)
    (hs : resp.status = 200)
    (he : extractOpenrouterText resp.data = "") :
    openrouterStep env pick ctx =
      ((openaiStep env pick ctx).1,
        List.replicate (httpPostWithRetry env.orOutcomes 2).attemptsMade
          { url := openrouterUrl, payload := ctx } ++ (openaiStep env pick ctx).2) := by
  simp [openrouterStep, hk, hr, hs, he]

theorem catchBlock_shape (pick : List String → String) (t : Thrown) (h : t ≠ .undef) :
    ∃ r src er st, catchBlock pick t = .ok r src er st ∧
      src ∈ (["rate_limited", "api_key_issue", "timeout", "fallback"] : List String) := by
  cases t with
  | undef => exact absurd rfl h
  | axiosErr e =>
    simp only [catchBlock, classifyCatch]
    split_ifs <;> exact ⟨_, _, _, _, rfl, by simp⟩
  | jsError m =>
    simp only [catchBlock, classifyCatch]
    split_ifs <;> exact ⟨_, _, _, _, rfl, by simp⟩

theorem openaiStep_shape (env : Env) (pick : List String → String) (ctx : List ChatMessage) :
    (∃ t, (openaiStep env pick ctx).1 = .error t ∧ t ≠ Thrown.undef) ∨
    (∃ x, (openaiStep env pick ctx).1 = .ok x ∧
      x.2 ∈ (["openai", "offline"] : List String)) := by
  unfold openaiStep
  by_cases hk : keyTruthy env.openaiKey
  · simp only [hk, if_true]
    cases hres : (httpPostWithRetry env.oaOutcomes 2).result with
    | threwUndefined => exact absurd hres (httpPostWithRetry_two_not_undef _)
    | failure e => exact Or.inl ⟨.axiosErr e, by simp, by simp⟩
    | success resp =>
      by_cases hst : resp.status == 200
      · simp only [hst, if_true]
        cases hex : extractOpenaiText resp.data with
        | error th =>
          exact Or.inl ⟨th, by simp, extractOpenaiText_thrown _ _ hex⟩
        | ok t => exact Or.inr ⟨(t, "openai"), by simp, by simp⟩
      · simp only [hst, if_false]
        exact Or.inl ⟨.jsError ("OpenAI API error: " ++ toString resp.status), by simp, by simp⟩
  · simp only [hk, if_false]
    exact Or.inr ⟨(pick offlineResponses, "offline"), by simp [hk], by simp⟩

theorem openrouterStep_shape (env : Env) (pick : List String → String) (ctx : List ChatMessage) :
    (∃ t, (openrouterStep env pick ctx).1 = .error t ∧ t ≠ Thrown.undef) ∨
    (∃ x, (openrouterStep env pick ctx).1 = .ok x ∧
      x.2 ∈ (["openrouter", "openai", "offline"] : List String)) := by
  have hoa := openaiStep_shape env pick ctx
  unfold openrouterStep
  by_cases hk : keyTruthy env.openrouterKey
  · simp only [hk, if_true]
    cases hres : (httpPostWithRetry env.orOutcomes 2).result with
    | threwUndefined => exact absurd hres (httpPostWithRetry_two_not_undef _)
    | failure e => exact Or.inl ⟨.axiosErr e, by simp, by simp⟩
    | success resp =>
      by_cases hcond : (resp.status == 200 && !(extractOpenrouterText resp.data == "")) = true
      · simp only [hcond, if_true]
        exact Or.inr ⟨(extractOpenrouterText resp.data, "openrouter"), by simp, by simp⟩
      · simp only [Bool.not_eq_true] at hcond
        simp only [hcond, if_false]
        rcases hoa with ⟨t, ht, hne⟩ | ⟨x, hx, hmem⟩
        · exact Or.inl ⟨t, by simp [ht], hne⟩
        · refine Or.inr ⟨x, by simp [hx], ?_⟩
          simp only [List.mem_cons, List.mem_singleton] at hmem ⊢
          tauto
  · simp only [hk, if_false]
    rcases hoa with ⟨t, ht, hne⟩ | ⟨x, hx, hmem⟩
    · exact Or.inl ⟨t, ht, hne⟩
    · refine Or.inr ⟨x, hx, ?_⟩
      simp only [List.mem_cons, List.mem_singleton] at hmem ⊢
      tauto

theorem catchBlock_pick (pick1 pick2 : List String → String) (t : Thrown) :
    sourceOf (catchBlock pick1 t) = sourceOf (catchBlock pick2 t) ∧
    providerTextOf (catchBlock pick1 t) = providerTextOf (catchBlock pick2 t) := by
  cases t with
  | undef => exact ⟨rfl, rfl⟩
  | axiosErr e =>
    simp only [catchBlock, classifyCatch]
    split_ifs <;> exact ⟨rfl, rfl⟩
  | jsError m =>
    simp only [catchBlock, classifyCatch]
    split_ifs <;> exact ⟨rfl, rfl⟩

theorem openaiStep_pick (env : Env) (ctx : List ChatMessage)
    (pick1 pick2 : List String → String) :
    ((openaiStep env pick1 ctx).1 = (openaiStep env pick2 ctx).1 ∨
      ((openaiStep env pick1 ctx).1 = .ok (pick1 offlineResponses, "offline") ∧
       (openaiStep env pick2 ctx).1 = .ok (pick2 offlineResponses, "offline"))) ∧
    (openaiStep env pick1 ctx).2 = (openaiStep env pick2 ctx).2 := by
  by_cases hk : keyTruthy env.openaiKey
  · constructor
    · exact Or.inl (by simp [openaiStep, hk])
    · simp [openaiStep, hk]
  · have hk' : keyTruthy env.openaiKey = false := by simpa using hk
    rw [openaiStep_offline env pick1 ctx hk', openaiStep_offline env pick2 ctx hk']
    exact ⟨Or.inr ⟨rfl, rfl⟩, rfl⟩

theorem openrouterStep_pick (env : Env) (ctx : List ChatMessage)
    (pick1 pick2 : List String → String) :
    ((openrouterStep env pick1 ctx).1 = (openrouterStep env pick2 ctx).1 ∨
      ((openrouterStep env pick1 ctx).1 = .ok (pick1 offlineResponses, "offline") ∧
       (openrouterStep env pick2 ctx).1 = .ok (pick2 offlineResponses, "offline"))) ∧
    (openrouterStep env pick1 ctx).2 = (openrouterStep env pick2 ctx).2 := by
  have hoa := openaiStep_pick env ctx pick1 pick2
  by_cases hk : keyTruthy env.openrouterKey
  · simp only [openrouterStep, hk, if_true]
    cases hres : (httpPostWithRetry env.orOutcomes 2).result with
    | threwUndefined => exact ⟨Or.inl rfl, rfl⟩
    | failure e => exact ⟨Or.inl rfl, rfl⟩
    | success resp =>
      by_cases hcond : (resp.status == 200 && !(extractOpenrouterText resp.data == "")) = true
      · simp [hcond]
      · have hcond' : (resp.status == 200 && !(extractOpenrouterText resp.data == "")) = false := by
          simpa using hcond
        simp only [hcond', Bool.false_eq_true, if_false]
        exact ⟨hoa.1, by rw [hoa.2]⟩
  · have hk' : keyTruthy env.openrouterKey = false := by simpa using hk
    simp only [openrouterStep, hk', if_false]
    exact hoa

/-- C9: the orchestrator is deterministic: with the random pool selector
fixed, running `handle` twice on identical input gives identical output
(it is a pure function of request, configuration, network oracle and
selector); moreover the selector influences only pool-drawn reply text,
never the source tag, the provider-produced text, or the outbound calls. -/
theorem handle_deterministic (env : Env) (req : ChatRequest)
    (pick pick1 pick2 : List String → String) :
    handle env pick req = handle env pick req ∧
    sourceOf (handle env pick1 req).result = sourceOf (handle env pick2 req).result ∧
    providerTextOf (handle env pick1 req).result = providerTextOf (handle env pick2 req).result ∧
    (handle env pick1 req).calls = (handle env pick2 req).calls := by
  refine ⟨rfl, ?_⟩
  cases hv : validMessage req.message with
  | none => simp [handle, hv, sourceOf, providerTextOf]
  | some s =>
    have hstep := openrouterStep_pick env (buildContextMessages req.chatHistory s) pick1 pick2
    simp only [handle, hv]
    rcases hstep with ⟨h1 | ⟨ha, hb⟩, h2⟩
    · rw [h1, h2]
      cases hrun : (openrouterStep env pick2 (buildContextMessages req.chatHistory s)).1 with
      | ok ts => simp [hrun]
      | error t =>
        simp only [hrun]
        have hcb := catchBlock_pick pick1 pick2 t
        exact ⟨hcb.1, hcb.2, trivial⟩
    · simp only [ha, hb]
      refine ⟨rfl, ?_, by rw [h2]⟩
      rfl

/-- Leftmost selector used for the concrete runs below. -/
def pickHead : List String → String := fun l => l.headD ""

/-- A fulfilled 200 response whose extracted content is the given text. -/
def okOutcome (s : String) : HttpOutcome :=
  .ok { status := 200,
        data := { choices := some [{ message := some { content := some s } }] } }

/-- A fulfilled 200 response carrying no content. -/
def emptyOutcome : HttpOutcome :=
  .ok { status := 200,
        data := { choices := some [{ message := some { content := none } }] } }

/-- A non-retryable HTTP 400 error. -/
def badRequestErr : AxiosError :=
  { status := some 400, data := some "bad request",
    message := "Request failed with status code 400", code := none }

/-- A non-retryable HTTP 400 rejection. -/
def badRequestOutcome : HttpOutcome := .err badRequestErr

/-- An HTTP 401 rejection whose response body does not contain the digits
401 (the axios message does, but the body is truthy and shadows it). -/
def unauthorizedOutcome : HttpOutcome :=
  .err { status := some 401, data := some "Unauthorized",
         message := "Request failed with status code 401", code := none }

/-- An HTTP 401 error with no response body, so the catch block sees the
axios message, which contains the digits 401. -/
def keyIssueErr : AxiosError :=
  { status := some 401, data := none,
    message := "Request failed with status code 401", code := none }

/-- The rejection carrying `keyIssueErr`. -/
def keyIssueOutcome : HttpOutcome := .err keyIssueErr

/-- The concrete request used in the witnesses. -/
def reqHello : ChatRequest := { message := .str "Hello", chatHistory := [], userId := none }

/-- Both providers configured; the primary rejects with a non-retryable
400; the secondary would answer. -/
def envTransportFail : Env :=
  { openrouterKey := some "or-key", openaiKey := some "oa-key",
    orOutcomes := fun _ => badRequestOutcome, oaOutcomes := fun _ => okOutcome "hi" }

/-- C1 counterexample: with the secondary (OpenAI) configured and the
primary (OpenRouter) failing in transport with a non-retryable 400, the
handler issues no call to the secondary endpoint and resorts directly to
classification (source fallback), contradicting the claimed fallthrough. -/
theorem primary_failure_skips_secondary_counterexample :
    (handle envTransportFail pickHead reqHello).calls =
      [{ url := openrouterUrl, payload := buildContextMessages [] "Hello" }] ∧
    sourceOf (handle envTransportFail pickHead reqHello).result = some "fallback" ∧
    openaiUrl ≠ openrouterUrl := by
  refine ⟨rfl, rfl, by decide⟩

/-- C1 (amended): when the primary provider call ends in a transport
failure, the orchestrator does NOT try the secondary provider even when
one is configured: the failure goes directly to the catch-block
classification, and every outbound request of the invocation went to the
primary endpoint. The secondary is only reached when the primary key is
unset or the primary call fulfilled without usable text. -/
theorem primary_failure_goes_to_classification (env : Env) (pick : List String → String)
    (req : ChatRequest) (s : String) (e : AxiosError)
    (hm : req.message = .str s) (hs : s ≠ "")
    (hor : keyTruthy env.openrouterKey = true)
    (hf : (httpPostWithRetry env.orOutcomes 2).result = .failure e) :
    (handle env pick req).result = catchBlock pick (.axiosErr e) ∧
    ∀ c ∈ (handle env pick req).calls, c.url = openrouterUrl := by
  rw [handle_valid env pick req s hm hs,
      openrouterStep_fail env pick (buildContextMessages req.chatHistory s) e hor hf]
  refine ⟨rfl, ?_⟩
  intro c hc
  simp only [List.mem_replicate] at hc
  rw [hc.2]

/-- Witness for the amended C1 at a concrete 400-failure run. -/
theorem primary_failure_goes_to_classification_witness :
    (handle envTransportFail pickHead reqHello).result =
      catchBlock pickHead (.axiosErr badRequestErr) ∧
    ∀ c ∈ (handle envTransportFail pickHead reqHello).calls, c.url = openrouterUrl :=
  primary_failure_goes_to_classification envTransportFail pickHead reqHello "Hello"
    badRequestErr rfl (by decide) rfl rfl

/-- Only the placeholder OpenAI key is set; the provider would answer. -/
def envPlaceholder : Env :=
  { openrouterKey := none, openaiKey := some "your-openai-api-key-here",
    orOutcomes := fun _ => okOutcome "hi", oaOutcomes := fun _ => okOutcome "hi" }

/-- C2 counterexample: with the OpenAI key equal to the known placeholder
string (so, not configured in the claimed sense) the chat path still
issues an outbound OpenAI call and returns source openai, not offline. -/
theorem placeholder_key_calls_provider_counterexample :
    (handle envPlaceholder pickHead reqHello).calls =
      [{ url := openaiUrl, payload := buildContextMessages [] "Hello" }] ∧
    sourceOf (handle envPlaceholder pickHead reqHello).result = some "openai" ∧
    some "openai" ≠ some "offline" := by
  refine ⟨rfl, rfl, by decide⟩

/-- C2 (amended): in the chat path a key counts as configured exactly
when it is truthy (present and non-empty) — the placeholder string is
excluded only by /api/status and the older server variant. When neither
key is truthy, the handler issues no outbound provider call and replies
from the offline pool with source offline. -/
theorem no_key_offline (env : Env) (pick : List String → String)
    (req : ChatRequest) (s : String)
    (hm : req.message = .str s) (hs : s ≠ "")
    (hor : keyTruthy env.openrouterKey = false)
    (hoa : keyTruthy env.openaiKey = false)
    (hpick : pick offlineResponses ∈ offlineResponses) :
    (handle env pick req).calls = [] ∧
    (handle env pick req).result = .ok (pick offlineResponses) "offline" none none ∧
    pick offlineResponses ∈ offlineResponses := by
  rw [handle_valid env pick req s hm hs]
  have h1 : openrouterStep env pick (buildContextMessages req.chatHistory s) =
      (.ok (pick offlineResponses, "offline"), []) := by
    simp only [openrouterStep, hor, Bool.false_eq_true, if_false]
    exact openaiStep_offline env pick _ hoa
  rw [h1]
  exact ⟨rfl, rfl, hpick⟩

/-- No key set at all (the OpenAI variable is present but empty, hence
falsy). -/
def envNoKeys : Env :=
  { openrouterKey := none, openaiKey := some "",
    orOutcomes := fun _ => okOutcome "hi", oaOutcomes := fun _ => okOutcome "hi" }

/-- Witness for the amended C2 on a run with no truthy key. -/
theorem no_key_offline_witness :
    (handle envNoKeys pickHead reqHello).calls = [] ∧
    (handle envNoKeys pickHead reqHello).result =
      .ok (pickHead offlineResponses) "offline" none none ∧
    pickHead offlineResponses ∈ offlineResponses :=
  no_key_offline envNoKeys pickHead reqHello "Hello" rfl (by decide) rfl rfl
    (by decide)

/-- The primary rejects with status 401 but a body without the digits
401; no secondary. -/
def envUnauthorized : Env :=
  { openrouterKey := some "or-key", openaiKey := none,
    orOutcomes := fun _ => unauthorizedOutcome, oaOutcomes := fun _ => okOutcome "hi" }

/-- C3 counterexample: a caught failure carrying status 401 whose message
text lacks the 401 digits and the key-issue substrings is classified as
fallback, not api_key_issue: the code tests the message text, never the
status, for the 401 rule. -/
theorem status401_not_api_key_issue_counterexample :
    sourceOf (handle envUnauthorized pickHead reqHello).result = some "fallback" ∧
    some "fallback" ≠ some "api_key_issue" := by
  refine ⟨rfl, by decide⟩

/-- C3 (amended): the caught-failure classification in source order:
quota-or-429 yields rate_limited with an offline-pool message; otherwise
a message TEXT containing account_deactivated, invalid_api_key or the
digits 401 (the status field itself is not consulted for 401) yields
api_key_issue with the fixed message; otherwise ECONNABORTED or a message
containing timeout yields timeout with an offline-pool message; anything
else yields fallback with a fallback-pool message. -/
theorem classification_order (env : Env) (pick : List String → String)
    (req : ChatRequest) (s : String) (e : AxiosError)
    (hm : req.message = .str s) (hs : s ≠ "")
    (hor : keyTruthy env.openrouterKey = true)
    (hf : (httpPostWithRetry env.orOutcomes 2).result = .failure e) :
    ((strIncludes (errMsgOfAxios e) "insufficient_quota" || e.status == some 429) = true →
      (handle env pick req).result =
        .ok (pick offlineResponses) "rate_limited" (some (errMsgOfAxios e)) e.status) ∧
    ((strIncludes (errMsgOfAxios e) "insufficient_quota" || e.status == some 429) = false →
      (strIncludes (errMsgOfAxios e) "account_deactivated" ||
        strIncludes (errMsgOfAxios e) "invalid_api_key" ||
        strIncludes (errMsgOfAxios e) "401") = true →
      (handle env pick req).result =
        .ok apiKeyIssueMessage "api_key_issue" (some (errMsgOfAxios e)) e.status) ∧
    ((strIncludes (errMsgOfAxios e) "insufficient_quota" || e.status == some 429) = false →
      (strIncludes (errMsgOfAxios e) "account_deactivated" ||
        strIncludes (errMsgOfAxios e) "invalid_api_key" ||
        strIncludes (errMsgOfAxios e) "401") = false →
      (e.code == some "ECONNABORTED" || strIncludes (errMsgOfAxios e) "timeout") = true →
      (handle env pick req).result =
        .ok (pick offlineResponses) "timeout" (some (errMsgOfAxios e)) e.status) ∧
    ((strIncludes (errMsgOfAxios e) "insufficient_quota" || e.status == some 429) = false →
      (strIncludes (errMsgOfAxios e) "account_deactivated" ||
        strIncludes (errMsgOfAxios e) "invalid_api_key" ||
        strIncludes (errMsgOfAxios e) "401") = false →
      (e.code == some "ECONNABORTED" || strIncludes (errMsgOfAxios e) "timeout") = false →
      (handle env pick req).result =
        .ok (pick fallbackResponses) "fallback" (some (errMsgOfAxios e)) e.status) := by
  rw [handle_valid env pick req s hm hs,
      openrouterStep_fail env pick (buildContextMessages req.chatHistory s) e hor hf]
  refine ⟨?_, ?_, ?_, ?_⟩
  · intro h1
    simp [catchBlock, classifyCatch, h1]
  · intro h1 h2
    simp [catchBlock, classifyCatch, h1, h2]
  · intro h1 h2 h3
    simp [catchBlock, classifyCatch, h1, h2, h3]
  · intro h1 h2 h3
    simp [catchBlock, classifyCatch, h1, h2, h3]

/-- The primary rejects with a bodyless 401, so the catch block sees the
axios message containing the digits 401. -/
def envKeyIssue : Env :=
  { openrouterKey := some "or-key", openaiKey := none,
    orOutcomes := fun _ => keyIssueOutcome, oaOutcomes := fun _ => okOutcome "hi" }

/-- Witness for the amended C3: the bodyless-401 failure hits the
api_key_issue rule with the fixed message. -/
theorem classification_order_witness :
    (handle envKeyIssue pickHead reqHello).result =
      .ok apiKeyIssueMessage "api_key_issue"
        (some "Request failed with status code 401") (some 401) :=
  (classification_order envKeyIssue pickHead reqHello "Hello"
      keyIssueErr rfl (by decide) rfl rfl).2.1 (by decide) (by decide)

theorem chatMessage_copy_id (l : List ChatMessage) :
    l.map (fun x => ({ role := x.role, content := x.content } : ChatMessage)) = l := by
  induction l with
  | nil => rfl
  | cons x xs ih => simp [ih]

/-- C4: the context builder produces exactly the fixed system-prompt
message, then the last `min 10 (length history)` history entries in their
original order (a suffix of the history), then the new user message; as a
pure function it cannot mutate its input history. -/
theorem context_builder_spec (h : List ChatMessage) (m : String) (hm : m ≠ "") :
    buildContextMessages h m =
      systemMessage :: (h.drop (h.length - 10) ++ [{ role := "user", content := m }]) ∧
    (h.drop (h.length - 10)).length = min 10 h.length ∧
    h.drop (h.length - 10) <:+ h := by
  refine ⟨?_, ?_, List.drop_suffix _ _⟩
  · simp [buildContextMessages, chatMessage_copy_id]
  · rw [List.length_drop]
    omega

/-- A concrete 12-message history. -/
def historyTwelve : List ChatMessage :=
  (List.range 12).map (fun i => { role := "user", content := toString i })

/-- Witness for C4 on a 12-entry history. -/
theorem context_builder_spec_witness :
    buildContextMessages historyTwelve "next" =
      systemMessage ::
        (historyTwelve.drop (historyTwelve.length - 10) ++
          [{ role := "user", content := "next" }]) ∧
    (historyTwelve.drop (historyTwelve.length - 10)).length = min 10 historyTwelve.length ∧
    historyTwelve.drop (historyTwelve.length - 10) <:+ historyTwelve :=
  context_builder_spec historyTwelve "next" (by decide)

/-- C6: when the primary fulfills with 200 but no usable text and the
secondary is configured and fulfills with 200 and text `t`, the handler
replies with `t` and source openai. -/
theorem empty_primary_falls_through (env : Env) (pick : List String → String)
    (req : ChatRequest) (s : String) (resp resp2 : AxiosResponse) (t : String)
    (hm : req.message = .str s) (hs : s ≠ "")
    (hor : keyTruthy env.openrouterKey = true)
    (h1 : (httpPostWithRetry env.orOutcomes 2).result = .success resp)
    (h2 : resp.status = 200)
    (h3 : extractOpenrouterText resp.data = "")
    (hoa : keyTruthy env.openaiKey = true)
    (h4 : (httpPostWithRetry env.oaOutcomes 2).result = .success resp2)
    (h5 : resp2.status = 200)
    (h6 : extractOpenaiText resp2.data = .ok t) :
    (handle env pick req).result = .ok t "openai" none none := by
  rw [handle_valid env pick req s hm hs,
      openrouterStep_fallthrough env pick (buildContextMessages req.chatHistory s) resp
        hor h1 h2 h3,
      openaiStep_success env pick (buildContextMessages req.chatHistory s) resp2 t
        hoa h4 h5 h6]

/-- Both providers configured; the primary fulfills 200 with no content,
the secondary fulfills 200 with text hi. -/
def envEmptyPrimary : Env :=
  { openrouterKey := some "or-key", openaiKey := some "oa-key",
    orOutcomes := fun _ => emptyOutcome, oaOutcomes := fun _ => okOutcome "hi" }

/-- Witness for C6 on a concrete empty-then-hi run. -/
theorem empty_primary_falls_through_witness :
    (handle envEmptyPrimary pickHead reqHello).result = .ok "hi" "openai" none none :=
  empty_primary_falls_through envEmptyPrimary pickHead reqHello "Hello"
    { status := 200, data := { choices := some [{ message := some { content := none } }] } }
    { status := 200, data := { choices := some [{ message := some { content := some "hi" } }] } }
    "hi" rfl (by decide) rfl rfl rfl rfl rfl rfl rfl rfl

/-- C7: a request whose message is absent or not a string is rejected
with the 400 validation error before any provider access, and no
outbound call is issued. -/
theorem invalid_message_rejected (env : Env) (pick : List String → String)
    (req : ChatRequest) (h : req.message = .absent ∨ req.message = .nonString) :
    handle env pick req =
      { result := .badRequest "Message is required and must be a string", calls := [] } := by
  rcases h with h | h <;> simp [handle, validMessage, h]

/-- Witness for C7 with an absent message against live-looking providers. -/
theorem invalid_message_rejected_witness :
    handle envTransportFail pickHead { message := .absent, chatHistory := [], userId := none } =
      { result := .badRequest "Message is required and must be a string", calls := [] } :=
  invalid_message_rejected envTransportFail pickHead
    { message := .absent, chatHistory := [], userId := none } (Or.inl rfl)

/-- C8: for every valid message, the handler resolves to exactly one
normal reply JSON: no thrown value escapes (the try/catch chain converts
every provider or transport failure into a reply), and the reply carries
one of the seven source tags. -/
theorem always_one_chat_result (env : Env) (pick : List String → String)
    (req : ChatRequest) (s : String) (hm : req.message = .str s) (hs : s ≠ "") :
    ∃ r src er st, (handle env pick req).result = .ok r src er st ∧ src ∈ allowedSources := by
  rw [handle_valid env pick req s hm hs]
  rcases openrouterStep_shape env pick (buildContextMessages req.chatHistory s) with
    ⟨t, ht, hne⟩ | ⟨x, hx, hmem⟩
  · simp only [ht]
    obtain ⟨r, src, er, st, hcb, hsub⟩ := catchBlock_shape pick t hne
    refine ⟨r, src, er, st, by simp [hcb], ?_⟩
    simp only [allowedSources, List.mem_cons, List.mem_singleton] at hsub ⊢
    tauto
  · simp only [hx]
    refine ⟨x.1, x.2, none, none, rfl, ?_⟩
    simp only [allowedSources, List.mem_cons, List.mem_singleton] at hmem ⊢
    tauto

/-- Witness for C8 on a concrete successful run. -/
theorem always_one_chat_result_witness :
    ∃ r src er st,
      (handle envEmptyPrimary pickHead reqHello).result = .ok r src er st ∧
      src ∈ allowedSources :=
  always_one_chat_result envEmptyPrimary pickHead reqHello "Hello" rfl (by decide)

/-- C10: primary configured and answering 200 with empty content, no
secondary key: the handler lands on the unconfigured tail and replies
from the offline pool with source offline, not fallback and not a
classified failure. -/
theorem empty_primary_no_secondary_offline (env : Env) (pick : List String → String)
    (req : ChatRequest) (s : String) (resp : AxiosResponse)
    (hm : req.message = .str s) (hs : s ≠ "")
    (hor : keyTruthy env.openrouterKey = true)
    (h1 : (httpPostWithRetry env.orOutcomes 2).result = .success resp)
    (h2 : resp.status = 200)
    (h3 : extractOpenrouterText resp.data = "")
    (hoa : keyTruthy env.openaiKey = false)
    (hpick : pick offlineResponses ∈ offlineResponses) :
    (handle env pick req).result = .ok (pick offlineResponses) "offline" none none ∧
    pick offlineResponses ∈ offlineResponses := by
  rw [handle_valid env pick req s hm hs,
      openrouterStep_fallthrough env pick (buildContextMessages req.chatHistory s) resp
        hor h1 h2 h3,
      openaiStep_offline env pick (buildContextMessages req.chatHistory s) hoa]
  exact ⟨rfl, hpick⟩

/-- Primary configured and fulfilling 200 with no content; no secondary
key. -/
def envEmptyNoSecondary : Env :=
  { openrouterKey := some "or-key", openaiKey := none,
    orOutcomes := fun _ => emptyOutcome, oaOutcomes := fun _ => okOutcome "hi" }

/-- Witness for C10 on a concrete run. -/
theorem empty_primary_no_secondary_offline_witness :
    (handle envEmptyNoSecondary pickHead reqHello).result =
      .ok (pickHead offlineResponses) "offline" none none ∧
    pickHead offlineResponses ∈ offlineResponses :=
  empty_primary_no_secondary_offline envEmptyNoSecondary pickHead reqHello "Hello"
    { status := 200, data := { choices := some [{ message := some { content := none } }] } }
    rfl (by decide) rfl rfl rfl rfl rfl (by decide)

end MindBuddy
